import Mathlib

/-!
Verification of the sabotage Connect-4 server state machine.

Shallow embedding of the server-side game logic (game registry, session
state machine, win/draw evaluator) of the networked Connect-4 variant,
together with theorems settling the specification claims.

Conventions of the embedding:
* TypeScript `'red' | 'yellow' | null` becomes `Option Player`.
* The 6x7 board is a list of rows; out-of-range reads yield `none`,
  matching the JavaScript `undefined !== player` behaviour.
* Each socket event handler becomes a pure function returning the new
  state paired with the error it reports to the offending participant
  (`none` when no error notification is emitted).
* Client-supplied coordinates arrive as `Int`, since the server validates
  possibly-negative numbers before use.
-/

inductive Player where
  | red
  | yellow
deriving DecidableEq, Repr

def Player.opponent : Player → Player
  | .red => .yellow
  | .yellow => .red

inductive GamePhase where
  | init_select_red
  | init_select_yellow
  | playing
  | sabotage_select_red
  | sabotage_select_yellow
  | game_over
  | waiting_for_opponent
deriving DecidableEq, Repr

abbrev Board := List (List (Option Player))

def ROWS : Nat := 6
def COLS : Nat := 7

def createEmptyBoard : Board := List.replicate ROWS (List.replicate COLS none)

/-- Read `board[r][c]`; out-of-range indices read as an empty cell. -/
def getCell (b : Board) (r c : Nat) : Option Player :=
  (b.getD r []).getD c none

/-- Write `board[r][c] := v` (callers always pass in-range indices). -/
def setCell (b : Board) (r c : Nat) (v : Option Player) : Board :=
  b.set r ((b.getD r []).set c v)

/-- One counting scan of `checkWin`: walk the cells, incrementing a run
counter on a match and resetting it otherwise; report whether the counter
ever reaches 4. -/
def winScan : Nat → List Bool → Bool
  | _, [] => false
  | count, b :: rest =>
      let cnt := if b then count + 1 else 0
      if 4 ≤ cnt then true else winScan cnt rest

/-- `checkWin(board, player, r, c)`: scans the full row `r`, the full
column `c` and the two full diagonals through `(r, c)`, looking for a run
of at least 4 cells of `player`. -/
def checkWin (board : Board) (player : Option Player) (r c : Nat) : Bool :=
  match player with
  | none => false
  | some p =>
    let m := min r c
    let len1 := min (ROWS - (r - m)) (COLS - (c - m))
    let sR := r + min (ROWS - 1 - r) c
    let sC := c - min (ROWS - 1 - r) c
    let len2 := min (sR + 1) (COLS - sC)
    winScan 0 ((List.range COLS).map fun j => getCell board r j == some p) ||
    winScan 0 ((List.range ROWS).map fun i => getCell board i c == some p) ||
    winScan 0 ((List.range len1).map fun t =>
      getCell board (r - m + t) (c - m + t) == some p) ||
    winScan 0 ((List.range len2).map fun t =>
      getCell board (sR - t) (sC + t) == some p)

/-- `checkDraw(board)`: the top row is entirely non-empty. -/
def checkDraw (board : Board) : Bool :=
  (board.getD 0 []).all fun cell => cell ≠ none

/-- The per-session game state (`GameState` in the server source).
Pairs `(·.1, ·.2)` hold the red and yellow components of the per-color
records (`playerSockets`, `rematchRequested`, `pendingReselect`). -/
structure GameState where
  board : Board
  players : List (String × Player)
  playerSockets : Option String × Option String
  currentPlayer : Option Player
  winner : Option Player
  isDraw : Bool
  gamePhase : GamePhase
  redSabotage : Option (Nat × Nat)
  yellowSabotage : Option (Nat × Nat)
  overlapJustTriggered : Option Player
  sabotageTriggeredBy : Option Player
  rematchRequested : Bool × Bool
  pendingReselect : Bool × Bool
deriving DecidableEq, Repr

/-- The error taxonomy.  Each constructor classifies one of the rejection
notifications (`game_error` / `join_error`) the handlers emit. -/
inductive GameErr where
  | NotFound
  | Full
  | SelfJoin
  | UnknownParticipant
  | IllegalAction
  | WrongPhase
  | NotYourTurn
  | InvalidCoordinates
  | InvalidColumn
  | ColumnFull
deriving DecidableEq, Repr

/-- The acting color's pending-reselect flag. -/
def pendingOf (g : GameState) : Player → Bool
  | .red => g.pendingReselect.1
  | .yellow => g.pendingReselect.2

/-- The acting color's sabotage spot. -/
def sabotageOf (g : GameState) : Player → Option (Nat × Nat)
  | .red => g.redSabotage
  | .yellow => g.yellowSabotage

/-- The explicit sabotage-selection phase belonging to a color. -/
def selectPhaseOf : Player → GamePhase
  | .red => .sabotage_select_red
  | .yellow => .sabotage_select_yellow

/-- The stricter validation of `select_sabotage`: either an explicit
selection phase matching the acting color on its turn, or a deferred
reselect during `playing` on the turn of a color whose pending flag is
set. -/
def canSelect (g : GameState) (playerColor : Player) : Prop :=
  (g.currentPlayer = some playerColor) ∧
  ((g.gamePhase = .init_select_red ∨ g.gamePhase = .sabotage_select_red) ∧
      playerColor = .red ∨
   (g.gamePhase = .init_select_yellow ∨ g.gamePhase = .sabotage_select_yellow) ∧
      playerColor = .yellow ∨
   g.gamePhase = .playing ∧ pendingOf g playerColor = true)

instance (g : GameState) (p : Player) : Decidable (canSelect g p) := by
  unfold canSelect; infer_instance

/-- The successful path of `select_sabotage` after all validation: store
the spot, clear the pending flag on a deferred reselect, and run the
phase-transition logic. -/
def applySelect (g : GameState) (playerColor : Player) (row col : Int) : GameState :=
  let isDelayedReselect := g.gamePhase = GamePhase.playing
  let g1 :=
    if playerColor = .red then { g with redSabotage := some (row.toNat, col.toNat) }
    else { g with yellowSabotage := some (row.toNat, col.toNat) }
  -- the source reads `gamePhase` and `sabotageTriggeredBy` after the
  -- in-place spot mutation; the spot write leaves both fields unchanged
  let currentPhase := g.gamePhase
  let cause := g.sabotageTriggeredBy
  let g2 :=
    if isDelayedReselect then
      if playerColor = .red then
        { g1 with pendingReselect := (false, g1.pendingReselect.2) }
      else
        { g1 with pendingReselect := (g1.pendingReselect.1, false) }
    else g1
  if currentPhase = .init_select_red then
    { g2 with gamePhase := .init_select_yellow, currentPlayer := some .yellow,
              sabotageTriggeredBy := none }
  else if currentPhase = .init_select_yellow then
    { g2 with gamePhase := .playing, currentPlayer := some .red,
              sabotageTriggeredBy := none }
  else if currentPhase = .sabotage_select_red ∨
          (isDelayedReselect ∧ playerColor = .red) then
    if g2.overlapJustTriggered = some .red then
      { g2 with gamePhase := .sabotage_select_yellow, currentPlayer := some .yellow }
    else
      { g2 with
          currentPlayer :=
            some (if cause = some .red then Player.yellow else Player.red),
          gamePhase := .playing, overlapJustTriggered := none,
          sabotageTriggeredBy := none }
  else if currentPhase = .sabotage_select_yellow ∨
          (isDelayedReselect ∧ playerColor = .yellow) then
    if g2.overlapJustTriggered = some .yellow then
      { g2 with gamePhase := .sabotage_select_red, currentPlayer := some .red }
    else
      { g2 with
          currentPlayer :=
            some (if cause = some .yellow then Player.red else Player.yellow),
          gamePhase := .playing, overlapJustTriggered := none,
          sabotageTriggeredBy := none }
  else g2

/-- The `select_sabotage` event handler, acting on one session.
Returns the new session state and the error reported to the acting
participant, if any. -/
def select_sabotage (g : GameState) (sid : String) (row col : Int) :
    GameState × Option GameErr :=
  match g.players.lookup sid with
  | none => (g, some .UnknownParticipant)
  | some playerColor =>
    if ¬ canSelect g playerColor then (g, some .IllegalAction)
    else if row < 0 ∨ 6 ≤ row ∨ col < 0 ∨ 7 ≤ col then (g, some .InvalidCoordinates)
    else (applySelect g playerColor row col, none)

/-- Lowest empty row of a column: scan `i = ROWS-1` down to `0` and
return the first empty cell's row. -/
def findLandingRow (b : Board) (colIndex : Nat) : Option Nat :=
  (List.range ROWS).reverse.find? fun i => getCell b i colIndex == none

/-- The deferred-reselect gate of `make_move`: convert the rejected move
into the start of a reselection (the submitted column is discarded). -/
def applyReselectGate (g : GameState) (playerMakingMove : Player) : GameState :=
  let g1 :=
    if playerMakingMove = .red then { g with redSabotage := none }
    else { g with yellowSabotage := none }
  let g2 :=
    if playerMakingMove = .red then
      { g1 with pendingReselect := (false, g1.pendingReselect.2) }
    else
      { g1 with pendingReselect := (g1.pendingReselect.1, false) }
  { g2 with
      gamePhase := selectPhaseOf playerMakingMove,
      currentPlayer := some playerMakingMove,
      sabotageTriggeredBy := none,
      overlapJustTriggered := none }

/-- The placement path of `make_move` after all validation, for the
landing cell `(rowIndex, c)`: classify the sabotage situation, place the
piece, check win and draw, and handle the sabotage outcome. -/
def applyMove (g : GameState) (playerMakingMove : Player) (rowIndex c : Nat) :
    GameState :=
  let opponent := playerMakingMove.opponent
  let isOverlap :=
    g.redSabotage = some (rowIndex, c) ∧ g.yellowSabotage = some (rowIndex, c)
  let isOpponentSabotage := ¬ isOverlap ∧
    (playerMakingMove = .red ∧ g.yellowSabotage = some (rowIndex, c) ∨
     playerMakingMove = .yellow ∧ g.redSabotage = some (rowIndex, c))
  let isOwnSabotage := ¬ isOverlap ∧ ¬ isOpponentSabotage ∧
    (playerMakingMove = .red ∧ g.redSabotage = some (rowIndex, c) ∨
     playerMakingMove = .yellow ∧ g.yellowSabotage = some (rowIndex, c))
  let playerToPlace := if isOpponentSabotage then opponent else playerMakingMove
  let board1 := setCell g.board rowIndex c (some playerToPlace)
  let gB := { g with board := board1 }
  if checkWin board1 (some playerToPlace) rowIndex c then
    { gB with winner := some playerToPlace, gamePhase := .game_over }
  else if checkDraw board1 then
    { gB with isDraw := true, gamePhase := .game_over }
  else if isOverlap then
    { gB with overlapJustTriggered := some playerMakingMove,
              redSabotage := none, yellowSabotage := none,
              pendingReselect := (false, false),
              sabotageTriggeredBy := none,
              gamePhase := selectPhaseOf playerMakingMove,
              currentPlayer := some playerMakingMove }
  else if isOpponentSabotage then
    { gB with overlapJustTriggered := none,
              sabotageTriggeredBy := some playerMakingMove,
              redSabotage :=
                if playerMakingMove = .red then gB.redSabotage else none,
              yellowSabotage :=
                if playerMakingMove = .red then none else gB.yellowSabotage,
              pendingReselect := (false, false),
              gamePhase := selectPhaseOf opponent,
              currentPlayer := some opponent }
  else if isOwnSabotage then
    { gB with overlapJustTriggered := none,
              pendingReselect :=
                if playerMakingMove = .red then (true, gB.pendingReselect.2)
                else (gB.pendingReselect.1, true),
              sabotageTriggeredBy := some playerMakingMove,
              currentPlayer := some opponent }
  else
    { gB with overlapJustTriggered := none,
              sabotageTriggeredBy := none,
              currentPlayer := some opponent }

/-- The `make_move` event handler, acting on one session. -/
def make_move (g : GameState) (sid : String) (colIndex : Int) :
    GameState × Option GameErr :=
  match g.players.lookup sid with
  | none => (g, some .UnknownParticipant)
  | some playerMakingMove =>
    if playerMakingMove = .red ∧ g.pendingReselect.1 = true ∨
       playerMakingMove = .yellow ∧ g.pendingReselect.2 = true then
      (applyReselectGate g playerMakingMove, none)
    else if g.gamePhase ≠ .playing then (g, some .WrongPhase)
    else if g.currentPlayer ≠ some playerMakingMove then (g, some .NotYourTurn)
    else if colIndex < 0 ∨ 7 ≤ colIndex then (g, some .InvalidColumn)
    else
      match findLandingRow g.board colIndex.toNat with
      | none => (g, some .ColumnFull)
      | some rowIndex =>
          (applyMove g playerMakingMove rowIndex colIndex.toNat, none)

/-- Mark the acting color's rematch request. -/
def markRematch (g : GameState) (playerColor : Player) : GameState :=
  if playerColor = .red then { g with rematchRequested := (true, g.rematchRequested.2) }
  else { g with rematchRequested := (g.rematchRequested.1, true) }

/-- The full reset performed when both rematch flags are set: empty
board, colors swapped between the two stored sockets, all transient
fields cleared, new Red (the old Yellow) selects first. -/
def applyRematchReset (g1 : GameState) (oldRedSocketId oldYellowSocketId : String) :
    GameState :=
  { g1 with
      board := createEmptyBoard,
      players := [(oldRedSocketId, Player.yellow), (oldYellowSocketId, Player.red)],
      playerSockets := (some oldYellowSocketId, some oldRedSocketId),
      winner := none, isDraw := false,
      redSabotage := none, yellowSabotage := none,
      overlapJustTriggered := none, sabotageTriggeredBy := none,
      rematchRequested := (false, false),
      pendingReselect := (false, false),
      gamePhase := .init_select_red,
      currentPlayer := some .red }

/-- The `request_rematch` event handler, acting on one session.  In the
both-flags-set case with a missing stored socket the source logs and
returns with the flag already mutated and no error notification. -/
def request_rematch (g : GameState) (sid : String) : GameState × Option GameErr :=
  if g.gamePhase ≠ .game_over then (g, some .WrongPhase)
  else
    match g.players.lookup sid with
    | none => (g, some .UnknownParticipant)
    | some playerColor =>
      let g1 := markRematch g playerColor
      if g1.rematchRequested.1 = true ∧ g1.rematchRequested.2 = true then
        match g1.playerSockets.1, g1.playerSockets.2 with
        | some oldRedSocketId, some oldYellowSocketId =>
            (applyRematchReset g1 oldRedSocketId oldYellowSocketId, none)
        | _, _ => (g1, none)
      else (g1, none)

/-- The game registry (`games` in the source): live sessions keyed by
game identifier, in insertion order. -/
abbrev Registry := List (String × GameState)

/-- Store a session under a key: replace the first entry with that key,
or append a fresh entry (JavaScript object assignment). -/
def setGame : Registry → String → GameState → Registry
  | [], gid, g => [(gid, g)]
  | (k, v) :: rest, gid, g =>
      if k = gid then (k, g) :: rest else (k, v) :: setGame rest gid g

/-- Look a session up by its identifier. -/
def lookupGame (reg : Registry) (gid : String) : Option GameState :=
  reg.lookup gid

/-- The fresh session built by `create_game`: creator is red, phase is
`waiting_for_opponent`. -/
def initialGame (sid : String) : GameState :=
  { board := createEmptyBoard,
    players := [(sid, Player.red)],
    playerSockets := (some sid, none),
    currentPlayer := none,
    winner := none, isDraw := false,
    gamePhase := .waiting_for_opponent,
    redSabotage := none, yellowSabotage := none,
    overlapJustTriggered := none, sabotageTriggeredBy := none,
    rematchRequested := (false, false),
    pendingReselect := (false, false) }

/-- The `create_game` handler (the game identifier is generated outside
the core and passed in). -/
def create_game (reg : Registry) (sid gid : String) : Registry :=
  setGame reg gid (initialGame sid)

/-- The `join_game` handler.  A joiner rejoining their own game is
silently ignored (`SelfJoin` is recorded here but never surfaced). -/
def join_game (reg : Registry) (gid sid : String) : Registry × Option GameErr :=
  match reg.lookup gid with
  | none => (reg, some .NotFound)
  | some game =>
    if game.playerSockets.2 ≠ none then (reg, some .Full)
    else if game.playerSockets.1 = some sid then (reg, some .SelfJoin)
    else
      (setGame reg gid
        { game with
            players := (sid, Player.yellow) :: game.players,
            playerSockets := (game.playerSockets.1, some sid),
            gamePhase := .init_select_red,
            currentPlayer := some .red }, none)

/-- Find the first session (in registry order) one of whose stored
per-color sockets is the given participant. -/
def findGameBySocket (reg : Registry) (sid : String) : Option (String × GameState) :=
  reg.find? fun kv =>
    kv.2.playerSockets.1 == some sid || kv.2.playerSockets.2 == some sid

/-- The socket notified when the given participant leaves a session. -/
def otherSocket (game : GameState) (sid : String) : Option String :=
  if game.playerSockets.1 = some sid then game.playerSockets.2
  else game.playerSockets.1

/-- `handleLeave`: locate the participant's session, delete it, and
return the opponent socket that receives `opponent_left` (if any). -/
def handleLeave (reg : Registry) (sid : String) : Registry × Option String :=
  match findGameBySocket reg sid with
  | none => (reg, none)
  | some (gid, game) =>
      (reg.filter fun kv => kv.1 ≠ gid, otherSocket game sid)

/-- The `leave_game` handler: only acts when the supplied game identifier
names an existing session. -/
def leave_game (reg : Registry) (gid sid : String) : Registry × Option String :=
  if (reg.lookup gid).isSome then handleLeave reg sid else (reg, none)

/-- The `disconnect` handler reuses `handleLeave` unconditionally. -/
def disconnect (reg : Registry) (sid : String) : Registry × Option String :=
  handleLeave reg sid

/-- Registry-level wrapper of `select_sabotage`. -/
def server_select_sabotage (reg : Registry) (gid sid : String) (row col : Int) :
    Registry × Option GameErr :=
  match reg.lookup gid with
  | none => (reg, some .NotFound)
  | some game =>
      let res := select_sabotage game sid row col
      (setGame reg gid res.1, res.2)

/-- Registry-level wrapper of `make_move`. -/
def server_make_move (reg : Registry) (gid sid : String) (colIndex : Int) :
    Registry × Option GameErr :=
  match reg.lookup gid with
  | none => (reg, some .NotFound)
  | some game =>
      let res := make_move game sid colIndex
      (setGame reg gid res.1, res.2)

/-- Registry-level wrapper of `request_rematch`. -/
def server_request_rematch (reg : Registry) (gid sid : String) :
    Registry × Option GameErr :=
  match reg.lookup gid with
  | none => (reg, some .NotFound)
  | some game =>
      let res := request_rematch game sid
      (setGame reg gid res.1, res.2)

/-- One inbound socket event, as routed by the server. -/
inductive ServerAction where
  | create (sid gid : String)
  | join (gid sid : String)
  | selectSab (gid sid : String) (row col : Int)
  | move (gid sid : String) (col : Int)
  | rematch (gid sid : String)
  | leave (gid sid : String)
  | close (sid : String)
deriving DecidableEq, Repr

/-- Apply one event to the registry (errors and notifications are
reported to sockets and do not feed back into the state). -/
def applyAction (reg : Registry) : ServerAction → Registry
  | .create sid gid => create_game reg sid gid
  | .join gid sid => (join_game reg gid sid).1
  | .selectSab gid sid row col => (server_select_sabotage reg gid sid row col).1
  | .move gid sid col => (server_make_move reg gid sid col).1
  | .rematch gid sid => (server_request_rematch reg gid sid).1
  | .leave gid sid => (leave_game reg gid sid).1
  | .close sid => (disconnect reg sid).1

/-- Run a sequence of events from a starting registry. -/
def runActions (reg : Registry) (acts : List ServerAction) : Registry :=
  acts.foldl applyAction reg

/-- Well-formed board: exactly 6 rows of 7 cells (every board the server
ever builds has this shape). -/
def boardWF (b : Board) : Prop := b.length = 6 ∧ ∀ row ∈ b, row.length = 7

instance (b : Board) : Decidable (boardWF b) := by
  unfold boardWF; infer_instance

/-- Specification-side predicate: the board holds four consecutive cells
of color `p` on one of the four lines through `(r, c)` — the row, the
column, the top-left-to-bottom-right diagonal, or the
bottom-left-to-top-right diagonal through that coordinate. -/
def FourThrough (b : Board) (p : Player) (r c : Nat) : Prop :=
  (∃ k, k < 4 ∧ ∀ t, t < 4 → getCell b r (k + t) = some p) ∨
  (∃ k, k < 3 ∧ ∀ t, t < 4 → getCell b (k + t) c = some p) ∨
  (∃ i, i < 3 ∧ ∃ j, j < 4 ∧ i + c = j + r ∧
    ∀ t, t < 4 → getCell b (i + t) (j + t) = some p) ∨
  (∃ i, i < 6 ∧ 3 ≤ i ∧ ∃ j, j < 4 ∧ i + j = r + c ∧
    ∀ t, t < 4 → getCell b (i - t) (j + t) = some p)

instance (b : Board) (p : Player) (r c : Nat) : Decidable (FourThrough b p r c) := by
  unfold FourThrough; infer_instance

/-! ### Concrete sessions, registries and traces used by witnesses and
counterexamples -/

/-- A two-participant session in the `playing` phase with an empty board. -/
def gBase : GameState :=
  { board := createEmptyBoard,
    players := [("r", Player.red), ("y", Player.yellow)],
    playerSockets := (some "r", some "y"),
    currentPlayer := some Player.red,
    winner := none, isDraw := false,
    gamePhase := GamePhase.playing,
    redSabotage := none, yellowSabotage := none,
    overlapJustTriggered := none, sabotageTriggeredBy := none,
    rematchRequested := (false, false), pendingReselect := (false, false) }

def gC1a : GameState :=
  { gBase with redSabotage := some (5, 0), yellowSabotage := some (5, 1) }

def gC1b : GameState := { gC1a with pendingReselect := (true, false) }

def gC2w : GameState :=
  { gBase with yellowSabotage := some (5, 0), redSabotage := some (5, 6) }

def gC3w : GameState :=
  { gBase with redSabotage := some (5, 0), yellowSabotage := some (5, 0) }

def gC5a : GameState := { gBase with gamePhase := GamePhase.game_over }

def gC5b : GameState := { gC5a with rematchRequested := (false, true) }

def gC8 : GameState :=
  { gBase with board := setCell createEmptyBoard 5 1 (some Player.red) }

def c8reg : Registry := [("g", gC8)]

def gC8after : GameState :=
  ((applyAction c8reg (ServerAction.move "g" "r" 0)).lookup "g").getD gBase

def gC9 : GameState := { initialGame "a" with playerSockets := (some "a", some "b") }

def c9reg : Registry := [("g1", gC9)]

def gC10w : GameState :=
  { gBase with gamePhase := GamePhase.init_select_red,
               board := setCell createEmptyBoard 2 3 (some Player.yellow) }

/-- A board on which yellow already has four in row 2 while red is about
to complete a vertical four in column 6 by landing at `(2, 6)`. -/
def c4board : Board :=
  [[none, none, none, none, none, none, none],
   [none, none, none, none, none, none, none],
   [some Player.yellow, some Player.yellow, some Player.yellow,
    some Player.yellow, none, none, none],
   [none, none, none, none, none, none, some Player.red],
   [none, none, none, none, none, none, some Player.red],
   [none, none, none, none, none, none, some Player.red]]

/-- A board on which red completes a horizontal four by landing at `(5, 0)`. -/
def c4winBoard : Board :=
  [[none, none, none, none, none, none, none],
   [none, none, none, none, none, none, none],
   [none, none, none, none, none, none, none],
   [none, none, none, none, none, none, none],
   [none, none, none, none, none, none, none],
   [none, some Player.red, some Player.red, some Player.red, none, none, none]]

/-- Event trace reaching a state with `winner` set and `isDraw` set at
once: yellow springs their own sabotage spot, red wins while yellow still
owes a deferred reselect, yellow submits a move after `game_over` (the
deferred-reselect gate fires and re-opens the game), yellow reselects an
already-occupied cell, and the two players then fill the board to a
draw. -/
def c6trace : List ServerAction :=
  [.create "r" "g", .join "g" "y",
   .selectSab "g" "r" 5 4,
   .selectSab "g" "y" 5 0,
   .move "g" "r" 1, .move "g" "y" 6, .move "g" "r" 2, .move "g" "y" 5, .move "g" "r" 3,
   .move "g" "y" 0,
   .move "g" "r" 4,
   .move "g" "y" 0,
   .selectSab "g" "y" 5 0,
   .move "g" "y" 0, .move "g" "r" 0, .move "g" "y" 0, .move "g" "r" 0, .move "g" "y" 0,
   .move "g" "r" 2, .move "g" "y" 2, .move "g" "r" 2, .move "g" "y" 2, .move "g" "r" 2,
   .move "g" "y" 1, .move "g" "r" 1, .move "g" "y" 1, .move "g" "r" 1, .move "g" "y" 1,
   .move "g" "r" 3, .move "g" "y" 3, .move "g" "r" 3, .move "g" "y" 3, .move "g" "r" 3,
   .move "g" "y" 4, .move "g" "r" 4, .move "g" "y" 4, .move "g" "r" 4, .move "g" "y" 4,
   .move "g" "r" 6, .move "g" "y" 6, .move "g" "r" 6, .move "g" "y" 6, .move "g" "r" 6,
   .move "g" "y" 5, .move "g" "r" 5, .move "g" "y" 5, .move "g" "r" 5, .move "g" "y" 5]

/-- Event trace reaching `game_over` with a red vertical four in
column 1; the piece at `(5, 1)` is red once the game is over. -/
def c8winTrace : List ServerAction :=
  [.create "r" "g", .join "g" "y",
   .selectSab "g" "r" 0 0, .selectSab "g" "y" 0 1,
   .move "g" "r" 1, .move "g" "y" 6, .move "g" "r" 1, .move "g" "y" 6,
   .move "g" "r" 1, .move "g" "y" 6, .move "g" "r" 1]

/-! ### Helper lemmas -/

theorem lookup_setGame (reg : Registry) (k : String) (v : GameState) (k' : String) :
    (setGame reg k v).lookup k' = if k' = k then some v else reg.lookup k' := by
  induction reg with
  | nil => by_cases h : k' = k <;>
      simp [setGame, List.lookup_cons, h, beq_self_eq_true, beq_false_of_ne]
  | cons kv rest ih =>
      obtain ⟨k0, v0⟩ := kv
      by_cases h0 : k0 = k
      · subst h0
        by_cases h : k' = k0 <;>
          simp [setGame, List.lookup_cons, h, beq_self_eq_true, beq_false_of_ne]
      · by_cases h : k' = k0 <;>
          simp [setGame, List.lookup_cons, h0, h, ih, beq_self_eq_true, beq_false_of_ne]

theorem setGame_self {reg : Registry} {gid : String} {g : GameState}
    (h : reg.lookup gid = some g) : setGame reg gid g = reg := by
  induction reg with
  | nil => simp [List.lookup] at h
  | cons kv rest ih =>
      obtain ⟨k0, v0⟩ := kv
      by_cases h0 : k0 = gid
      · subst h0
        simp [List.lookup_cons, beq_self_eq_true] at h
        simp [setGame, h]
      · rw [List.lookup_cons] at h
        simp [beq_false_of_ne (Ne.symm h0)] at h
        simp [setGame, h0, ih h]

theorem lookup_filter_self (reg : Registry) (gid : String) :
    (reg.filter fun kv => kv.1 ≠ gid).lookup gid = none := by
  induction reg with
  | nil => rfl
  | cons kv rest ih =>
      obtain ⟨k, v⟩ := kv
      by_cases hk : k = gid
      · rw [List.filter_cons_of_neg (by simp [hk])]
        exact ih
      · rw [List.filter_cons_of_pos (by simp [hk]), List.lookup_cons,
          show (gid == k) = false from beq_false_of_ne (fun hg => hk hg.symm)]
        exact ih

theorem lookup_filter_ne (reg : Registry) (gid0 gid : String) (h : gid ≠ gid0) :
    (reg.filter fun kv => kv.1 ≠ gid0).lookup gid = reg.lookup gid := by
  induction reg with
  | nil => rfl
  | cons kv rest ih =>
      obtain ⟨k, v⟩ := kv
      by_cases hk : k = gid0
      · rw [List.filter_cons_of_neg (by simp [hk]), ih, List.lookup_cons,
          show (gid == k) = false from beq_false_of_ne (by rw [hk]; exact h)]
      · rw [List.filter_cons_of_pos (by simp [hk]), List.lookup_cons, List.lookup_cons]
        cases hb : (gid == k) <;> simp only [hb]
        exact ih

theorem rowLen {b : Board} (hb : boardWF b) {r : Nat} (hr : r < 6) :
    (b[r]?.getD []).length = 7 := by
  obtain ⟨hlen, hrows⟩ := hb
  have hrb : r < b.length := by omega
  rw [List.getElem?_eq_getElem hrb, Option.getD_some]
  exact hrows _ (List.getElem_mem hrb)

theorem getCell_setCell_self {b : Board} (hb : boardWF b) {r c : Nat}
    (hr : r < 6) (hc : c < 7) (v : Option Player) :
    getCell (setCell b r c v) r c = v := by
  have hrb : r < b.length := by have := hb.1; omega
  simp only [getCell, setCell, List.getD_eq_getElem?_getD]
  rw [List.getElem?_set_self hrb, Option.getD_some,
    List.getElem?_set_self (by rw [rowLen hb hr]; omega), Option.getD_some]

theorem getCell_setCell_ne {b : Board} {r c r' c' : Nat}
    (h : ¬(r' = r ∧ c' = c)) (v : Option Player) :
    getCell (setCell b r c v) r' c' = getCell b r' c' := by
  simp only [getCell, setCell, List.getD_eq_getElem?_getD]
  by_cases hr : r' = r
  · subst hr
    have hc : c ≠ c' := fun hcc => h ⟨rfl, hcc.symm⟩
    rw [List.getElem?_set_self']
    cases hbr : b[r']? with
    | none => simp
    | some row => simp [List.getElem?_set_ne hc]
  · rw [List.getElem?_set_ne (fun hrr => hr hrr.symm)]

theorem findLandingRow_lt {b : Board} {c r : Nat}
    (h : findLandingRow b c = some r) : r < 6 ∧ getCell b r c = none := by
  unfold findLandingRow at h
  have h1 := List.find?_some h
  have h2 := List.mem_of_find?_eq_some h
  constructor
  · have : r ∈ List.range ROWS := by simpa using h2
    simp [ROWS] at this
    omega
  · simpa using h1

theorem select_sabotage_error_eq {g : GameState} {sid : String} {row col : Int}
    {g' : GameState} {e : GameErr}
    (h : select_sabotage g sid row col = (g', some e)) : g' = g := by
  unfold select_sabotage at h
  repeat' split at h
  all_goals
    first
    | (injection h with h1 h2; exact h1.symm)
    | (exact absurd (congrArg Prod.snd h) (by simp))

theorem make_move_error_eq {g : GameState} {sid : String} {colIndex : Int}
    {g' : GameState} {e : GameErr}
    (h : make_move g sid colIndex = (g', some e)) : g' = g := by
  unfold make_move at h
  repeat' split at h
  all_goals
    first
    | (injection h with h1 h2; exact h1.symm)
    | (exact absurd (congrArg Prod.snd h) (by simp))

theorem request_rematch_error_eq {g : GameState} {sid : String}
    {g' : GameState} {e : GameErr}
    (h : request_rematch g sid = (g', some e)) : g' = g := by
  unfold request_rematch at h
  simp only [] at h
  repeat' split at h
  all_goals
    first
    | (injection h with h1 h2; exact h1.symm)
    | (exact absurd (congrArg Prod.snd h) (by simp))

theorem select_sabotage_snd_eq {g : GameState} {sid : String} {row col : Int}
    {e : GameErr} (h : (select_sabotage g sid row col).2 = some e) :
    (select_sabotage g sid row col).1 = g :=
  select_sabotage_error_eq
    (show select_sabotage g sid row col
        = ((select_sabotage g sid row col).1, some e) by rw [← h])

theorem make_move_snd_eq {g : GameState} {sid : String} {colIndex : Int}
    {e : GameErr} (h : (make_move g sid colIndex).2 = some e) :
    (make_move g sid colIndex).1 = g :=
  make_move_error_eq
    (show make_move g sid colIndex
        = ((make_move g sid colIndex).1, some e) by rw [← h])

theorem request_rematch_snd_eq {g : GameState} {sid : String}
    {e : GameErr} (h : (request_rematch g sid).2 = some e) :
    (request_rematch g sid).1 = g :=
  request_rematch_error_eq
    (show request_rematch g sid
        = ((request_rematch g sid).1, some e) by rw [← h])

theorem sabotageOf_applySelect (g : GameState) (p : Player) (row col : Int) :
    sabotageOf (applySelect g p row col) p = some (row.toNat, col.toNat) := by
  cases p <;>
    (simp [applySelect]; repeat' split) <;> simp [sabotageOf]

theorem applySelect_board (g : GameState) (p : Player) (row col : Int) :
    (applySelect g p row col).board = g.board := by
  cases p <;> (simp [applySelect]; repeat' split) <;> simp

theorem select_sabotage_board (g : GameState) (sid : String) (row col : Int) :
    (select_sabotage g sid row col).1.board = g.board := by
  unfold select_sabotage
  repeat' split
  any_goals rfl
  exact applySelect_board _ _ _ _

theorem make_move_gate {g : GameState} {sid : String} {mover : Player} (colIndex : Int)
    (hlook : g.players.lookup sid = some mover)
    (hpend : pendingOf g mover = true) :
    make_move g sid colIndex = (applyReselectGate g mover, none) := by
  cases mover <;>
    (simp only [pendingOf] at hpend;
     simp only [make_move, hlook];
     rw [if_pos (by simp [hpend])])

theorem make_move_placing {g : GameState} {sid : String} {mover : Player}
    {colIndex : Int} {r : Nat}
    (hlook : g.players.lookup sid = some mover)
    (hpend : pendingOf g mover = false)
    (hphase : g.gamePhase = .playing)
    (hturn : g.currentPlayer = some mover)
    (hc0 : 0 ≤ colIndex) (hc7 : colIndex < 7)
    (hland : findLandingRow g.board colIndex.toNat = some r) :
    make_move g sid colIndex = (applyMove g mover r colIndex.toNat, none) := by
  cases mover <;>
    (simp only [pendingOf] at hpend;
     simp only [make_move, hlook];
     rw [if_neg (by simp [hpend]), if_neg (by simp [hphase]),
       if_neg (by simp [hturn]), if_neg (by omega)];
     simp only [hland])

theorem applyReselectGate_spec (g : GameState) (p : Player) :
    applyReselectGate g p =
      { g with
          redSabotage := if p = .red then none else g.redSabotage,
          yellowSabotage := if p = .red then g.yellowSabotage else none,
          pendingReselect :=
            if p = .red then (false, g.pendingReselect.2)
            else (g.pendingReselect.1, false),
          gamePhase := selectPhaseOf p,
          currentPlayer := some p,
          sabotageTriggeredBy := none,
          overlapJustTriggered := none } := by
  cases p <;> simp [applyReselectGate]

theorem applyMove_own {g : GameState} {p : Player} {r c : Nat}
    (hown : sabotageOf g p = some (r, c))
    (hopp : sabotageOf g p.opponent ≠ some (r, c))
    (hwin : checkWin (setCell g.board r c (some p)) (some p) r c = false)
    (hdraw : checkDraw (setCell g.board r c (some p)) = false) :
    applyMove g p r c =
      { g with
          board := setCell g.board r c (some p),
          overlapJustTriggered := none,
          pendingReselect :=
            if p = .red then (true, g.pendingReselect.2)
            else (g.pendingReselect.1, true),
          sabotageTriggeredBy := some p,
          currentPlayer := some p.opponent } := by
  cases p <;>
    (simp only [sabotageOf, Player.opponent] at hown hopp;
     simp [applyMove, Player.opponent, hown, hopp, hwin, hdraw])

theorem applyMove_opponent {g : GameState} {p : Player} {r c : Nat}
    (hopp : sabotageOf g p.opponent = some (r, c))
    (hown : sabotageOf g p ≠ some (r, c)) :
    applyMove g p r c =
      (let board1 := setCell g.board r c (some p.opponent)
       let gB := { g with board := board1 }
       if checkWin board1 (some p.opponent) r c then
         { gB with winner := some p.opponent, gamePhase := .game_over }
       else if checkDraw board1 then
         { gB with isDraw := true, gamePhase := .game_over }
       else
         { gB with overlapJustTriggered := none,
                   sabotageTriggeredBy := some p,
                   redSabotage := if p = .red then g.redSabotage else none,
                   yellowSabotage := if p = .red then none else g.yellowSabotage,
                   pendingReselect := (false, false),
                   gamePhase := selectPhaseOf p.opponent,
                   currentPlayer := some p.opponent }) := by
  cases p <;>
    (simp only [sabotageOf, Player.opponent] at hopp hown;
     simp [applyMove, Player.opponent, hopp, hown])

theorem applyMove_overlap {g : GameState} {p : Player} {r c : Nat}
    (hred : g.redSabotage = some (r, c))
    (hyel : g.yellowSabotage = some (r, c))
    (hwin : checkWin (setCell g.board r c (some p)) (some p) r c = false)
    (hdraw : checkDraw (setCell g.board r c (some p)) = false) :
    applyMove g p r c =
      { g with
          board := setCell g.board r c (some p),
          overlapJustTriggered := some p,
          redSabotage := none, yellowSabotage := none,
          pendingReselect := (false, false),
          sabotageTriggeredBy := none,
          gamePhase := selectPhaseOf p,
          currentPlayer := some p } := by
  cases p <;> simp [applyMove, Player.opponent, hred, hyel, hwin, hdraw]

theorem applyMove_board (g : GameState) (p : Player) (rowIndex c : Nat) :
    ∃ v, (applyMove g p rowIndex c).board = setCell g.board rowIndex c v := by
  simp only [applyMove]
  repeat' split
  all_goals exact ⟨_, rfl⟩

theorem make_move_cell {g : GameState} {sid : String} {colIndex : Int}
    {r c : Nat} {p : Player} (hcell : getCell g.board r c = some p) :
    getCell (make_move g sid colIndex).1.board r c = some p := by
  unfold make_move
  cases hl : g.players.lookup sid with
  | none => exact hcell
  | some mover =>
      simp only []
      split
      · rw [applyReselectGate_spec]
        exact hcell
      · split
        · exact hcell
        · split
          · exact hcell
          · split
            · exact hcell
            · cases hland : findLandingRow g.board colIndex.toNat with
              | none => exact hcell
              | some rowIndex =>
                  simp only []
                  obtain ⟨v, hb⟩ := applyMove_board g mover rowIndex colIndex.toNat
                  rw [hb, getCell_setCell_ne]
                  · exact hcell
                  · rintro ⟨h1, h2⟩
                    subst h1; subst h2
                    rw [(findLandingRow_lt hland).2] at hcell
                    exact Option.noConfusion hcell

theorem markRematch_board (g : GameState) (p : Player) :
    (markRematch g p).board = g.board := by
  cases p <;> simp [markRematch]

theorem request_rematch_board (g : GameState) (sid : String) :
    (request_rematch g sid).1.board = g.board ∨
    (request_rematch g sid).1.board = createEmptyBoard := by
  unfold request_rematch
  simp only []
  repeat' split
  all_goals
    first
    | (right; rfl)
    | (left; rfl)
    | (left; exact markRematch_board _ _)

theorem handleLeave_lookup {reg : Registry} {sid gid : String} {g' : GameState}
    (hg' : (handleLeave reg sid).1.lookup gid = some g') :
    reg.lookup gid = some g' := by
  unfold handleLeave at hg'
  cases hfind : findGameBySocket reg sid with
  | none => rw [hfind] at hg'; exact hg'
  | some kv =>
      obtain ⟨gid0, game0⟩ := kv
      rw [hfind] at hg'
      simp only [] at hg'
      by_cases hgg : gid = gid0
      · rw [hgg, lookup_filter_self] at hg'
        exact Option.noConfusion hg'
      · rw [lookup_filter_ne _ _ _ hgg] at hg'
        exact hg'

theorem winScan_iff (cells : List Bool) : ∀ count : Nat, count < 4 →
    (winScan count cells = true ↔
      (∀ t, t < 4 - count → cells[t]? = some true) ∨
      (∃ k, ∀ t, t < 4 → cells[k + t]? = some true)) := by
  induction cells with
  | nil =>
      intro count h
      simp only [winScan]
      constructor
      · intro hf; cases hf
      · rintro (hA | ⟨k, hk⟩)
        · have h0 := hA 0 (by omega); simp at h0
        · have h0 := hk 0 (by omega); simp at h0
  | cons b rest ih =>
      intro count h
      cases b with
      | true =>
          by_cases h3 : count = 3
          · subst h3
            constructor
            · intro _
              left
              intro t ht
              have ht0 : t = 0 := by omega
              subst ht0
              simp
            · intro _
              simp only [winScan, if_true]
              rw [if_pos (by omega)]
          · have hstep : winScan count (true :: rest) = winScan (count + 1) rest := by
              simp only [winScan, if_true]
              rw [if_neg (by omega)]
            rw [hstep, ih (count + 1) (by omega)]
            constructor
            · rintro (hA | ⟨k, hk⟩)
              · left
                intro t ht
                cases t with
                | zero => simp
                | succ t' =>
                    rw [List.getElem?_cons_succ]
                    exact hA t' (by omega)
              · right
                refine ⟨k + 1, fun t ht => ?_⟩
                rw [show k + 1 + t = (k + t) + 1 by omega, List.getElem?_cons_succ]
                exact hk t ht
            · rintro (hA | ⟨k, hk⟩)
              · left
                intro t ht
                have := hA (t + 1) (by omega)
                rwa [List.getElem?_cons_succ] at this
              · cases k with
                | zero =>
                    left
                    intro t ht
                    have := hk (t + 1) (by omega)
                    rwa [show 0 + (t + 1) = t + 1 by omega,
                      List.getElem?_cons_succ] at this
                | succ k' =>
                    right
                    refine ⟨k', fun t ht => ?_⟩
                    have := hk t ht
                    rwa [show k' + 1 + t = (k' + t) + 1 by omega,
                      List.getElem?_cons_succ] at this
      | false =>
          have hstep : winScan count (false :: rest) = winScan 0 rest := by
            simp only [winScan, Bool.false_eq_true, if_false]
            rw [if_neg (by omega)]
          rw [hstep, ih 0 (by omega)]
          constructor
          · rintro (hA | ⟨k, hk⟩)
            · right
              refine ⟨1, fun t ht => ?_⟩
              rw [show 1 + t = t + 1 by omega, List.getElem?_cons_succ]
              exact hA t (by omega)
            · right
              refine ⟨k + 1, fun t ht => ?_⟩
              rw [show k + 1 + t = (k + t) + 1 by omega, List.getElem?_cons_succ]
              exact hk t ht
          · rintro (hA | ⟨k, hk⟩)
            · have h0 := hA 0 (by omega)
              simp at h0
            · cases k with
              | zero =>
                  have h0 := hk 0 (by omega)
                  simp at h0
              | succ k' =>
                  right
                  refine ⟨k', fun t ht => ?_⟩
                  have := hk t ht
                  rwa [show k' + 1 + t = (k' + t) + 1 by omega,
                    List.getElem?_cons_succ] at this

theorem winScan_zero_iff (cells : List Bool) :
    winScan 0 cells = true ↔ ∃ k, ∀ t, t < 4 → cells[k + t]? = some true := by
  rw [winScan_iff cells 0 (by omega)]
  constructor
  · rintro (hA | hW)
    · exact ⟨0, fun t ht => by rw [Nat.zero_add]; exact hA t (by omega)⟩
    · exact hW
  · intro hW
    exact Or.inr hW

theorem winScan_map_range (f : Nat → Bool) (n : Nat) :
    winScan 0 ((List.range n).map f) = true ↔
      ∃ k, k + 3 < n ∧ ∀ t, t < 4 → f (k + t) = true := by
  rw [winScan_zero_iff]
  constructor
  · rintro ⟨k, hk⟩
    have hlen : k + 3 < n := by
      by_contra hno
      have h3 := hk 3 (by omega)
      rw [List.getElem?_map, List.getElem?_eq_none (by simpa using hno)] at h3
      exact Option.noConfusion h3
    refine ⟨k, hlen, fun t ht => ?_⟩
    have := hk t ht
    rw [List.getElem?_map, List.getElem?_range (by omega)] at this
    simpa using this
  · rintro ⟨k, hkn, hf⟩
    refine ⟨k, fun t ht => ?_⟩
    rw [List.getElem?_map, List.getElem?_range (by omega)]
    simp [hf t ht]

theorem horizBridge (b : Board) (p : Player) (r : Nat) :
    (∃ k, k + 3 < 7 ∧ ∀ t, t < 4 → (getCell b r (k + t) == some p) = true) ↔
    (∃ k, k < 4 ∧ ∀ t, t < 4 → getCell b r (k + t) = some p) := by
  constructor <;>
    rintro ⟨k, hk, hf⟩ <;>
    exact ⟨k, by omega, fun t ht => by have := hf t ht; simpa using this⟩

theorem vertBridge (b : Board) (p : Player) (c : Nat) :
    (∃ k, k + 3 < 6 ∧ ∀ t, t < 4 → (getCell b (k + t) c == some p) = true) ↔
    (∃ k, k < 3 ∧ ∀ t, t < 4 → getCell b (k + t) c = some p) := by
  constructor <;>
    rintro ⟨k, hk, hf⟩ <;>
    exact ⟨k, by omega, fun t ht => by have := hf t ht; simpa using this⟩

theorem diagBridge (b : Board) (p : Player) (r c : Nat) (hr : r < 6) (hc : c < 7) :
    (∃ k, k + 3 < min (6 - (r - min r c)) (7 - (c - min r c)) ∧
      ∀ t, t < 4 →
        (getCell b (r - min r c + (k + t)) (c - min r c + (k + t)) == some p) = true) ↔
    (∃ i, i < 3 ∧ ∃ j, j < 4 ∧ i + c = j + r ∧
      ∀ t, t < 4 → getCell b (i + t) (j + t) = some p) := by
  constructor
  · rintro ⟨k, hk, hf⟩
    refine ⟨r - min r c + k, by omega, c - min r c + k, by omega, by omega,
      fun t ht => ?_⟩
    have := hf t ht
    rw [beq_iff_eq] at this
    rw [show r - min r c + k + t = r - min r c + (k + t) from by omega,
        show c - min r c + k + t = c - min r c + (k + t) from by omega]
    exact this
  · rintro ⟨i, hi, j, hj, hijrc, hf⟩
    refine ⟨i - (r - min r c), by omega, fun t ht => ?_⟩
    rw [beq_iff_eq]
    have e1 : r - min r c + (i - (r - min r c) + t) = i + t := by omega
    have e2 : c - min r c + (i - (r - min r c) + t) = j + t := by omega
    rw [e1, e2]
    exact hf t ht

theorem antiDiagBridge (b : Board) (p : Player) (r c : Nat)
    (hr : r < 6) (hc : c < 7) :
    (∃ k, k + 3 < min (r + min (6 - 1 - r) c + 1) (7 - (c - min (6 - 1 - r) c)) ∧
      ∀ t, t < 4 →
        (getCell b (r + min (6 - 1 - r) c - (k + t))
          (c - min (6 - 1 - r) c + (k + t)) == some p) = true) ↔
    (∃ i, i < 6 ∧ 3 ≤ i ∧ ∃ j, j < 4 ∧ i + j = r + c ∧
      ∀ t, t < 4 → getCell b (i - t) (j + t) = some p) := by
  constructor
  · rintro ⟨k, hk, hf⟩
    refine ⟨r + min (6 - 1 - r) c - k, by omega, by omega,
      c - min (6 - 1 - r) c + k, by omega, by omega, fun t ht => ?_⟩
    have := hf t ht
    rw [beq_iff_eq] at this
    have e1 : r + min (6 - 1 - r) c - k - t = r + min (6 - 1 - r) c - (k + t) := by
      omega
    have e2 : c - min (6 - 1 - r) c + k + t = c - min (6 - 1 - r) c + (k + t) := by
      omega
    rw [e1, e2]
    exact this
  · rintro ⟨i, hi6, hi3, j, hj, hijrc, hf⟩
    refine ⟨r + min (6 - 1 - r) c - i, by omega, fun t ht => ?_⟩
    rw [beq_iff_eq]
    have e1 : r + min (6 - 1 - r) c - (r + min (6 - 1 - r) c - i + t) = i - t := by
      omega
    have e2 : c - min (6 - 1 - r) c + (r + min (6 - 1 - r) c - i + t) = j + t := by
      omega
    rw [e1, e2]
    exact hf t ht

theorem checkWin_iff (b : Board) (p : Player) (r c : Nat)
    (hr : r < 6) (hc : c < 7) :
    (checkWin b (some p) r c = true ↔ FourThrough b p r c) := by
  simp only [checkWin, ROWS, COLS, Bool.or_eq_true]
  rw [winScan_map_range, winScan_map_range, winScan_map_range, winScan_map_range]
  rw [horizBridge, vertBridge, diagBridge b p r c hr hc,
    antiDiagBridge b p r c hr hc]
  unfold FourThrough
  rw [or_assoc, or_assoc]

/-- Claim C1: in phase `playing`, a move by the current player landing on
their own sabotage spot (which is not also the opponent's spot) that
produces neither a win nor a draw keeps the mover's color on the placed
cell, sets the mover's `pendingReselect` flag and `sabotageTriggeredBy`,
passes the turn to the opponent, leaves the phase `playing` and the
mover's sabotage spot unchanged; and the mover's next `make_move` while
the flag is still set mutates no board cell, discards the submitted
column, clears the mover's spot and flag, sets the phase to the mover's
explicit selection phase and makes the mover the current player. -/
theorem claim_C1 :
    (∀ (g : GameState) (sid : String) (mover : Player) (colIndex : Int) (r : Nat),
      boardWF g.board →
      g.players.lookup sid = some mover →
      pendingOf g mover = false →
      g.gamePhase = .playing →
      g.currentPlayer = some mover →
      0 ≤ colIndex → colIndex < 7 →
      findLandingRow g.board colIndex.toNat = some r →
      sabotageOf g mover = some (r, colIndex.toNat) →
      sabotageOf g mover.opponent ≠ some (r, colIndex.toNat) →
      checkWin (setCell g.board r colIndex.toNat (some mover)) (some mover)
        r colIndex.toNat = false →
      checkDraw (setCell g.board r colIndex.toNat (some mover)) = false →
      (make_move g sid colIndex).2 = none ∧
      getCell (make_move g sid colIndex).1.board r colIndex.toNat = some mover ∧
      pendingOf (make_move g sid colIndex).1 mover = true ∧
      (make_move g sid colIndex).1.sabotageTriggeredBy = some mover ∧
      (make_move g sid colIndex).1.currentPlayer = some mover.opponent ∧
      (make_move g sid colIndex).1.gamePhase = .playing ∧
      sabotageOf (make_move g sid colIndex).1 mover = sabotageOf g mover) ∧
    (∀ (g : GameState) (sid : String) (mover : Player) (colIndex : Int),
      g.players.lookup sid = some mover →
      pendingOf g mover = true →
      (make_move g sid colIndex).2 = none ∧
      (make_move g sid colIndex).1.board = g.board ∧
      sabotageOf (make_move g sid colIndex).1 mover = none ∧
      pendingOf (make_move g sid colIndex).1 mover = false ∧
      (make_move g sid colIndex).1.gamePhase = selectPhaseOf mover ∧
      (make_move g sid colIndex).1.currentPlayer = some mover ∧
      ∀ colIndex' : Int, make_move g sid colIndex' = make_move g sid colIndex) := by
  constructor
  · intro g sid mover colIndex r hwf hlook hpend hphase hturn hc0 hc7 hland
      hown hopp hwin hdraw
    have hr6 := (findLandingRow_lt hland).1
    have hcn : colIndex.toNat < 7 := by omega
    rw [make_move_placing hlook hpend hphase hturn hc0 hc7 hland,
      applyMove_own hown hopp hwin hdraw]
    cases mover <;>
      simp [pendingOf, sabotageOf, hphase, getCell_setCell_self hwf hr6 hcn]
  · intro g sid mover colIndex hlook hpend
    rw [make_move_gate colIndex hlook hpend, applyReselectGate_spec]
    refine ⟨rfl, rfl, ?_, ?_, rfl, rfl, ?_⟩
    · cases mover <;> simp [sabotageOf]
    · cases mover <;> simp [pendingOf]
    · intro colIndex'
      rw [make_move_gate colIndex' hlook hpend, applyReselectGate_spec]

/-- Claim C2: a move by the current player in phase `playing` landing
exactly on the opponent's sabotage spot (and not on an overlap of both
spots) places a piece of the opponent's color, and — provided that
placement wins nothing for the opponent's color and draws nothing — the
opponent's spot is cleared, `sabotageTriggeredBy` is set to the mover,
the phase becomes the opponent's explicit selection phase and the
opponent becomes the current player. -/
theorem claim_C2 (g : GameState) (sid : String) (mover : Player) (colIndex : Int)
    (r : Nat)
    (hwf : boardWF g.board)
    (hlook : g.players.lookup sid = some mover)
    (hpend : pendingOf g mover = false)
    (hphase : g.gamePhase = .playing)
    (hturn : g.currentPlayer = some mover)
    (hc0 : 0 ≤ colIndex) (hc7 : colIndex < 7)
    (hland : findLandingRow g.board colIndex.toNat = some r)
    (hopp : sabotageOf g mover.opponent = some (r, colIndex.toNat))
    (hown : sabotageOf g mover ≠ some (r, colIndex.toNat)) :
    (make_move g sid colIndex).2 = none ∧
    getCell (make_move g sid colIndex).1.board r colIndex.toNat =
      some mover.opponent ∧
    (checkWin (setCell g.board r colIndex.toNat (some mover.opponent))
        (some mover.opponent) r colIndex.toNat = false →
     checkDraw (setCell g.board r colIndex.toNat (some mover.opponent)) = false →
     sabotageOf (make_move g sid colIndex).1 mover.opponent = none ∧
     (make_move g sid colIndex).1.sabotageTriggeredBy = some mover ∧
     (make_move g sid colIndex).1.gamePhase = selectPhaseOf mover.opponent ∧
     (make_move g sid colIndex).1.currentPlayer = some mover.opponent) := by
  have hr6 := (findLandingRow_lt hland).1
  have hcn : colIndex.toNat < 7 := by omega
  rw [make_move_placing hlook hpend hphase hturn hc0 hc7 hland,
    applyMove_opponent hopp hown]
  simp only []
  refine ⟨trivial, ?_, ?_⟩
  · split
    · exact getCell_setCell_self hwf hr6 hcn _
    · split <;> exact getCell_setCell_self hwf hr6 hcn _
  · intro hwin hdraw
    rw [if_neg (by simp [hwin]), if_neg (by simp [hdraw])]
    cases mover <;> simp [sabotageOf, Player.opponent]

/-- Claim C3: a move by the current player in phase `playing` landing on
a cell that equals both players' sabotage spots, producing neither win
nor draw, keeps the mover's color on the placed cell, clears both spots
and both pending flags, sets `overlapJustTriggered` to the mover, sets
the phase to the mover's explicit selection phase and keeps the mover as
current player. -/
theorem claim_C3 (g : GameState) (sid : String) (mover : Player) (colIndex : Int)
    (r : Nat)
    (hwf : boardWF g.board)
    (hlook : g.players.lookup sid = some mover)
    (hpend : pendingOf g mover = false)
    (hphase : g.gamePhase = .playing)
    (hturn : g.currentPlayer = some mover)
    (hc0 : 0 ≤ colIndex) (hc7 : colIndex < 7)
    (hland : findLandingRow g.board colIndex.toNat = some r)
    (hred : g.redSabotage = some (r, colIndex.toNat))
    (hyel : g.yellowSabotage = some (r, colIndex.toNat))
    (hwin : checkWin (setCell g.board r colIndex.toNat (some mover)) (some mover)
        r colIndex.toNat = false)
    (hdraw : checkDraw (setCell g.board r colIndex.toNat (some mover)) = false) :
    (make_move g sid colIndex).2 = none ∧
    getCell (make_move g sid colIndex).1.board r colIndex.toNat = some mover ∧
    (make_move g sid colIndex).1.redSabotage = none ∧
    (make_move g sid colIndex).1.yellowSabotage = none ∧
    (make_move g sid colIndex).1.pendingReselect = (false, false) ∧
    (make_move g sid colIndex).1.overlapJustTriggered = some mover ∧
    (make_move g sid colIndex).1.gamePhase = selectPhaseOf mover ∧
    (make_move g sid colIndex).1.currentPlayer = some mover := by
  have hr6 := (findLandingRow_lt hland).1
  have hcn : colIndex.toNat < 7 := by omega
  rw [make_move_placing hlook hpend hphase hturn hc0 hc7 hland,
    applyMove_overlap hred hyel hwin hdraw]
  simp [getCell_setCell_self hwf hr6 hcn]

/-- Claim C5: in phase `game_over`, a rematch request by one participant
sets only that color's `rematchRequested` flag; the request that makes
both flags true resets the board, swaps the color assignment between the
two stored sockets (previous Yellow becomes Red), clears
winner/draw/sabotage/trigger/pending state, resets both rematch flags,
sets phase `init_select_red` and current player red; and a rematch
request in any other phase fails with `WrongPhase` leaving the state
unchanged. -/
theorem claim_C5 (g : GameState) (sid : String) (color : Player)
    (hlook : g.players.lookup sid = some color) :
    (g.gamePhase = .game_over →
     (if color = .red then g.rematchRequested.2 else g.rematchRequested.1) = false →
     request_rematch g sid =
       ({ g with rematchRequested :=
            if color = .red then (true, g.rematchRequested.2)
            else (g.rematchRequested.1, true) }, none)) ∧
    (∀ a b : String,
     g.gamePhase = .game_over →
     (if color = .red then g.rematchRequested.2 else g.rematchRequested.1) = true →
     g.playerSockets = (some a, some b) →
     request_rematch g sid =
       ({ board := createEmptyBoard,
          players := [(a, Player.yellow), (b, Player.red)],
          playerSockets := (some b, some a),
          currentPlayer := some .red,
          winner := none, isDraw := false,
          gamePhase := .init_select_red,
          redSabotage := none, yellowSabotage := none,
          overlapJustTriggered := none, sabotageTriggeredBy := none,
          rematchRequested := (false, false),
          pendingReselect := (false, false) }, none)) ∧
    (g.gamePhase ≠ .game_over → request_rematch g sid = (g, some .WrongPhase)) := by
  refine ⟨?_, ?_, ?_⟩
  · intro hphase hother
    simp only [request_rematch, hlook]
    rw [if_neg (not_not_intro hphase)]
    cases color <;> simp_all [markRematch]
  · intro a b hphase hother hsock
    simp only [request_rematch, hlook]
    rw [if_neg (not_not_intro hphase)]
    cases color <;> simp_all [markRematch, applyRematchReset]
  · intro hphase
    simp only [request_rematch]
    rw [if_pos hphase]

/-- Claim C7: whenever a registry-level action reports an error of the
taxonomy, the registry — and hence every session in it — is left exactly
as it was. -/
theorem claim_C7 (reg : Registry) (gid sid : String) (row col colIndex : Int) :
    (∀ e, (join_game reg gid sid).2 = some e → (join_game reg gid sid).1 = reg) ∧
    (∀ e, (server_select_sabotage reg gid sid row col).2 = some e →
      (server_select_sabotage reg gid sid row col).1 = reg) ∧
    (∀ e, (server_make_move reg gid sid colIndex).2 = some e →
      (server_make_move reg gid sid colIndex).1 = reg) ∧
    (∀ e, (server_request_rematch reg gid sid).2 = some e →
      (server_request_rematch reg gid sid).1 = reg) := by
  refine ⟨?_, ?_, ?_, ?_⟩
  · intro e h
    unfold join_game at h ⊢
    cases hl : reg.lookup gid with
    | none => simp [hl]
    | some game =>
        simp only [hl] at h ⊢
        split at h
        · simp_all
        · split at h
          · simp_all
          · exact absurd h (by simp)
  · intro e h
    unfold server_select_sabotage at h ⊢
    cases hl : reg.lookup gid with
    | none => simp [hl]
    | some game =>
        simp only [hl] at h ⊢
        rw [select_sabotage_snd_eq h]
        exact setGame_self hl
  · intro e h
    unfold server_make_move at h ⊢
    cases hl : reg.lookup gid with
    | none => simp [hl]
    | some game =>
        simp only [hl] at h ⊢
        rw [make_move_snd_eq h]
        exact setGame_self hl
  · intro e h
    unfold server_request_rematch at h ⊢
    cases hl : reg.lookup gid with
    | none => simp [hl]
    | some game =>
        simp only [hl] at h ⊢
        rw [request_rematch_snd_eq h]
        exact setGame_self hl

/-- Claim C8 (amended): a non-empty board cell survives every single
action on the registry, except that the surviving session's board may
have been replaced wholesale by the all-empty board (which is what a
completed rematch does). -/
theorem claim_C8 (reg : Registry) (act : ServerAction) (gid : String)
    (g g' : GameState) (r c : Nat) (p : Player)
    (hg : reg.lookup gid = some g)
    (hg' : (applyAction reg act).lookup gid = some g')
    (hcell : getCell g.board r c = some p) :
    getCell g'.board r c = some p ∨ g'.board = createEmptyBoard := by
  cases act with
  | create sid gid2 =>
      simp only [applyAction, create_game] at hg'
      rw [lookup_setGame] at hg'
      by_cases hgg : gid = gid2
      · rw [if_pos hgg] at hg'
        right
        injection hg' with hg'
        rw [← hg']
        rfl
      · rw [if_neg hgg, hg] at hg'
        injection hg' with hg'
        rw [← hg']
        exact Or.inl hcell
  | join gid2 sid =>
      simp only [applyAction, join_game] at hg'
      cases hl : reg.lookup gid2 with
      | none =>
          rw [hl] at hg'
          rw [hg] at hg'
          injection hg' with hg'
          rw [← hg']
          exact Or.inl hcell
      | some game =>
          rw [hl] at hg'
          simp only [] at hg'
          split at hg'
          · rw [hg] at hg'; injection hg' with hg'; rw [← hg']; exact Or.inl hcell
          · split at hg'
            · rw [hg] at hg'; injection hg' with hg'; rw [← hg']; exact Or.inl hcell
            · rw [lookup_setGame] at hg'
              by_cases hgg : gid = gid2
              · rw [if_pos hgg] at hg'
                injection hg' with hg'
                rw [hgg, hl] at hg
                injection hg with hg
                subst hg
                left
                rw [← hg']
                exact hcell
              · rw [if_neg hgg, hg] at hg'
                injection hg' with hg'
                rw [← hg']
                exact Or.inl hcell
  | selectSab gid2 sid row col =>
      simp only [applyAction, server_select_sabotage] at hg'
      cases hl : reg.lookup gid2 with
      | none =>
          rw [hl, hg] at hg'
          injection hg' with hg'
          rw [← hg']
          exact Or.inl hcell
      | some game =>
          rw [hl] at hg'
          simp only [] at hg'
          rw [lookup_setGame] at hg'
          by_cases hgg : gid = gid2
          · rw [if_pos hgg] at hg'
            injection hg' with hg'
            rw [hgg, hl] at hg
            injection hg with hg
            subst hg
            left
            rw [← hg', select_sabotage_board]
            exact hcell
          · rw [if_neg hgg, hg] at hg'
            injection hg' with hg'
            rw [← hg']
            exact Or.inl hcell
  | move gid2 sid col =>
      simp only [applyAction, server_make_move] at hg'
      cases hl : reg.lookup gid2 with
      | none =>
          rw [hl, hg] at hg'
          injection hg' with hg'
          rw [← hg']
          exact Or.inl hcell
      | some game =>
          rw [hl] at hg'
          simp only [] at hg'
          rw [lookup_setGame] at hg'
          by_cases hgg : gid = gid2
          · rw [if_pos hgg] at hg'
            injection hg' with hg'
            rw [hgg, hl] at hg
            injection hg with hg
            left
            rw [← hg']
            exact make_move_cell (by rw [hg]; exact hcell)
          · rw [if_neg hgg, hg] at hg'
            injection hg' with hg'
            rw [← hg']
            exact Or.inl hcell
  | rematch gid2 sid =>
      simp only [applyAction, server_request_rematch] at hg'
      cases hl : reg.lookup gid2 with
      | none =>
          rw [hl, hg] at hg'
          injection hg' with hg'
          rw [← hg']
          exact Or.inl hcell
      | some game =>
          rw [hl] at hg'
          simp only [] at hg'
          rw [lookup_setGame] at hg'
          by_cases hgg : gid = gid2
          · rw [if_pos hgg] at hg'
            injection hg' with hg'
            rw [hgg, hl] at hg
            injection hg with hg
            rw [← hg']
            subst hg
            rcases request_rematch_board game sid with hb | hb
            · left
              rw [hb]
              exact hcell
            · right
              exact hb
          · rw [if_neg hgg, hg] at hg'
            injection hg' with hg'
            rw [← hg']
            exact Or.inl hcell
  | leave gid2 sid =>
      simp only [applyAction, leave_game] at hg'
      split at hg'
      · have := handleLeave_lookup hg'
        rw [hg] at this
        injection this with this
        rw [← this]
        exact Or.inl hcell
      · rw [hg] at hg'
        injection hg' with hg'
        rw [← hg']
        exact Or.inl hcell
  | close sid =>
      simp only [applyAction, disconnect] at hg'
      have := handleLeave_lookup hg'
      rw [hg] at this
      injection this with this
      rw [← this]
      exact Or.inl hcell

/-- Claim C9 (amended): for a participant who belongs to a session, a
disconnect — and a leave whose supplied game identifier names an existing
session — deletes the participant's session from the registry (a
subsequent lookup fails) and notifies the other stored participant
socket, if any; such a leave and a disconnect have identical effect. -/
theorem claim_C9 (reg : Registry) (sid gid0 gid' : String) (game0 : GameState)
    (hfind : findGameBySocket reg sid = some (gid0, game0)) :
    (handleLeave reg sid).1.lookup gid0 = none ∧
    (handleLeave reg sid).2 = otherSocket game0 sid ∧
    disconnect reg sid = handleLeave reg sid ∧
    ((reg.lookup gid').isSome → leave_game reg gid' sid = handleLeave reg sid) := by
  refine ⟨?_, ?_, rfl, ?_⟩
  · simp only [handleLeave, hfind]
    exact lookup_filter_self reg gid0
  · simp only [handleLeave, hfind]
  · intro hsome
    simp only [leave_game, hsome, if_pos]

/-- Claim C10: any `select_sabotage` call that passes the phase/turn
legality check and supplies in-bounds coordinates is accepted and stores
the coordinate as the acting color's sabotage spot — the board cell's
occupancy is never consulted (the statement quantifies over all boards,
including ones where the chosen cell is already occupied). -/
theorem claim_C10 (g : GameState) (sid : String) (playerColor : Player)
    (row col : Int)
    (hlook : g.players.lookup sid = some playerColor)
    (hsel : canSelect g playerColor)
    (hr0 : 0 ≤ row) (hr6 : row < 6) (hc0 : 0 ≤ col) (hc7 : col < 7) :
    (select_sabotage g sid row col).2 = none ∧
    sabotageOf (select_sabotage g sid row col).1 playerColor =
      some (row.toNat, col.toNat) := by
  simp only [select_sabotage, hlook]
  rw [if_neg (not_not_intro hsel), if_neg (by omega)]
  exact ⟨rfl, sabotageOf_applySelect g playerColor row col⟩

/-- Claim C4 (amended): if placing color `p` at in-bounds `(r, c)`
produces four consecutive cells of `p` on one of the four lines through
`(r, c)`, then `checkWin` returns true for `p` at that coordinate; and it
returns false for the opposing color provided the opposing color does
not itself have four consecutive cells on one of those four lines. -/
theorem claim_C4 (b : Board) (p : Player) (r c : Nat) (hr : r < 6) (hc : c < 7)
    (hfour : FourThrough (setCell b r c (some p)) p r c) :
    checkWin (setCell b r c (some p)) (some p) r c = true ∧
    (¬ FourThrough (setCell b r c (some p)) p.opponent r c →
      checkWin (setCell b r c (some p)) (some p.opponent) r c = false) := by
  refine ⟨(checkWin_iff _ p r c hr hc).mpr hfour, fun hno => ?_⟩
  rw [Bool.eq_false_iff]
  intro hT
  exact hno ((checkWin_iff _ p.opponent r c hr hc).mp hT)

/-- Counterexample to claim C4 as stated: on `c4board`, placing red at
`(2, 6)` completes a vertical four for red through the placed coordinate
(so the claim's hypothesis holds), yet `checkWin` for yellow at the same
coordinate is true, not false — yellow already has four in row 2, which
the row scan through `(2, 6)` finds. -/
theorem claim_C4_counterexample :
    FourThrough (setCell c4board 2 6 (some Player.red)) Player.red 2 6 ∧
    checkWin (setCell c4board 2 6 (some Player.red)) (some Player.red) 2 6 = true ∧
    ¬ checkWin (setCell c4board 2 6 (some Player.red)) (some Player.yellow) 2 6
        = false := by decide

theorem claim_C4_witness :
    checkWin (setCell c4winBoard 5 0 (some Player.red)) (some Player.red) 5 0
      = true ∧
    checkWin (setCell c4winBoard 5 0 (some Player.red)) (some Player.yellow) 5 0
      = false := by
  have h := claim_C4 c4winBoard Player.red 5 0 (by decide) (by decide) (by decide)
  exact ⟨h.1, h.2 (by decide)⟩

/-- Claim C6: after the concrete event trace `c6trace`, the session holds
`winner = some red` and `isDraw = true` at the same time.  The claimed
invariant — `winner` and `isDraw` never both truthy — is therefore
violated on a reachable state: `make_move` runs its deferred-reselect
gate before checking the phase, so a move submitted after `game_over` by
a player with `pendingReselect` set re-opens the game, and the board can
then fill to a draw while `winner` is still set. -/
theorem claim_C6 :
    ((runActions [] c6trace).lookup "g").map (fun g => (g.winner, g.isDraw))
      = some (some Player.red, true) := by decide

theorem claim_C1_witness :
    (pendingOf (make_move gC1a "r" 0).1 Player.red = true ∧
     (make_move gC1a "r" 0).1.currentPlayer = some Player.yellow ∧
     (make_move gC1a "r" 0).1.gamePhase = GamePhase.playing ∧
     sabotageOf (make_move gC1a "r" 0).1 Player.red = sabotageOf gC1a Player.red) ∧
    ((make_move gC1b "r" 3).1.board = gC1b.board ∧
     (make_move gC1b "r" 3).1.gamePhase = GamePhase.sabotage_select_red ∧
     (make_move gC1b "r" 3).1.currentPlayer = some Player.red ∧
     make_move gC1b "r" 5 = make_move gC1b "r" 3) := by
  have ha := claim_C1.1 gC1a "r" Player.red 0 5 (by decide) (by decide) (by decide)
    (by decide) (by decide) (by decide) (by decide) (by decide) (by decide)
    (by decide) (by decide) (by decide)
  have hb := claim_C1.2 gC1b "r" Player.red 3 (by decide) (by decide)
  exact ⟨⟨ha.2.2.1, ha.2.2.2.2.1, ha.2.2.2.2.2.1, ha.2.2.2.2.2.2⟩,
    ⟨hb.2.1, hb.2.2.2.2.1, hb.2.2.2.2.2.1, hb.2.2.2.2.2.2 5⟩⟩

theorem claim_C2_witness :
    (make_move gC2w "r" 0).2 = none ∧
    getCell (make_move gC2w "r" 0).1.board 5 0 = some Player.yellow ∧
    sabotageOf (make_move gC2w "r" 0).1 Player.yellow = none ∧
    (make_move gC2w "r" 0).1.gamePhase = GamePhase.sabotage_select_yellow ∧
    (make_move gC2w "r" 0).1.currentPlayer = some Player.yellow := by
  have h := claim_C2 gC2w "r" Player.red 0 5 (by decide) (by decide) (by decide)
    (by decide) (by decide) (by decide) (by decide) (by decide) (by decide)
    (by decide)
  have hrest := h.2.2 (by decide) (by decide)
  exact ⟨h.1, h.2.1, hrest.1, hrest.2.2.1, hrest.2.2.2⟩

theorem claim_C3_witness :
    (make_move gC3w "r" 0).2 = none ∧
    getCell (make_move gC3w "r" 0).1.board 5 0 = some Player.red ∧
    (make_move gC3w "r" 0).1.redSabotage = none ∧
    (make_move gC3w "r" 0).1.yellowSabotage = none ∧
    (make_move gC3w "r" 0).1.pendingReselect = (false, false) ∧
    (make_move gC3w "r" 0).1.overlapJustTriggered = some Player.red ∧
    (make_move gC3w "r" 0).1.gamePhase = GamePhase.sabotage_select_red ∧
    (make_move gC3w "r" 0).1.currentPlayer = some Player.red :=
  claim_C3 gC3w "r" Player.red 0 5 (by decide) (by decide) (by decide)
    (by decide) (by decide) (by decide) (by decide) (by decide) (by decide)
    (by decide) (by decide) (by decide)

theorem claim_C5_witness :
    request_rematch gC5a "r" =
      ({ gC5a with rematchRequested := (true, false) }, none) ∧
    (request_rematch gC5b "r").1.players = [("r", Player.yellow), ("y", Player.red)] ∧
    (request_rematch gC5b "r").1.playerSockets = (some "y", some "r") ∧
    (request_rematch gC5b "r").1.board = createEmptyBoard ∧
    (request_rematch gC5b "r").1.gamePhase = GamePhase.init_select_red ∧
    (request_rematch gC5b "r").1.currentPlayer = some Player.red ∧
    request_rematch gBase "r" = (gBase, some GameErr.WrongPhase) := by
  have ha := (claim_C5 gC5a "r" Player.red (by decide)).1 (by decide) (by decide)
  have hb := (claim_C5 gC5b "r" Player.red (by decide)).2.1 "r" "y" (by decide)
    (by decide) (by decide)
  have hc := (claim_C5 gBase "r" Player.red (by decide)).2.2 (by decide)
  exact ⟨ha, by rw [hb], by rw [hb], by rw [hb], by rw [hb], by rw [hb], hc⟩

theorem claim_C7_witness :
    (join_game [] "g" "x").1 = [] ∧
    (server_select_sabotage [] "g" "x" 0 0).1 = [] ∧
    (server_make_move [] "g" "x" 0).1 = [] ∧
    (server_request_rematch [] "g" "x").1 = [] := by
  have h := claim_C7 [] "g" "x" 0 0 0
  exact ⟨h.1 GameErr.NotFound (by decide), h.2.1 GameErr.NotFound (by decide),
    h.2.2.1 GameErr.NotFound (by decide), h.2.2.2 GameErr.NotFound (by decide)⟩

/-- Counterexample to claim C8 as stated: after the game of `c8winTrace`
ends, cell `(5, 1)` holds a red piece; two rematch requests later the
same cell is empty again — the completed rematch resets the board. -/
theorem claim_C8_counterexample :
    (((runActions [] c8winTrace).lookup "g").map fun g => getCell g.board 5 1)
      = some (some Player.red) ∧
    (((runActions []
        (c8winTrace ++ [ServerAction.rematch "g" "r", ServerAction.rematch "g" "y"])).lookup
        "g").map fun g => getCell g.board 5 1) = some none := by decide

theorem claim_C8_witness :
    getCell gC8after.board 5 1 = some Player.red ∨
    gC8after.board = createEmptyBoard :=
  claim_C8 c8reg (ServerAction.move "g" "r" 0) "g" gC8 gC8after 5 1 Player.red
    (by decide) (by decide) (by decide)

/-- Counterexample to claim C9 as stated: participant `"a"` belongs to
session `"g1"`, yet a leave carrying the unknown identifier `"g2"`
deletes nothing, while a disconnect deletes the session — leave and
disconnect are not identical in effect. -/
theorem claim_C9_counterexample :
    (findGameBySocket c9reg "a").isSome = true ∧
    (leave_game c9reg "g2" "a").1 = c9reg ∧
    (disconnect c9reg "a").1 = [] ∧
    ¬ (leave_game c9reg "g2" "a").1 = (disconnect c9reg "a").1 := by decide

theorem claim_C9_witness :
    (handleLeave c9reg "a").1.lookup "g1" = none ∧
    (handleLeave c9reg "a").2 = otherSocket gC9 "a" ∧
    disconnect c9reg "a" = handleLeave c9reg "a" ∧
    leave_game c9reg "g1" "a" = handleLeave c9reg "a" := by
  have h := claim_C9 c9reg "a" "g1" "g1" gC9 (by decide)
  exact ⟨h.1, h.2.1, h.2.2.1, h.2.2.2 (by decide)⟩

theorem claim_C10_witness :
    getCell gC10w.board 2 3 = some Player.yellow ∧
    (select_sabotage gC10w "r" 2 3).2 = none ∧
    sabotageOf (select_sabotage gC10w "r" 2 3).1 Player.red = some (2, 3) := by
  have h := claim_C10 gC10w "r" Player.red 2 3 (by decide) (by decide)
    (by decide) (by decide) (by decide) (by decide)
  exact ⟨by decide, h.1, h.2⟩
